import Mathlib

/-!
Shallow embedding of the zincati update-agent core (exp-zincati repository)
and proofs about its state machine, strategies, graph client and backend
proxy. Each definition mirrors one item of the Rust source; asynchronous
futures are embedded as resolved outcomes (a value, or a failed future),
and actor handlers as pure state-transition functions.
-/

namespace Zincati

/-- Release identifier (libcincinnati Release): minimally a version string,
cheaply copyable. -/
structure Release where
  version : String
deriving DecidableEq

/-- UpdateAgentState from src/update_agent/agent.rs. -/
inductive UpdateAgentState
  | StartState
  | Initialization
  | Steady
  | UpdateFound (r : Release)
  | UpdateInProgress (r : Release)
  | UpdateStaged (r : Release)
  | UpdateFinalizing (r : Release)
deriving DecidableEq

/-- Resolution of one asynchronous external call as observed at the end of a
tick future chain: either a resolved value, or a failed future (an Error). -/
inductive Outcome (A : Type)
  | ok (val : A)
  | fail
deriving DecidableEq

/-- Environment of one RefreshTick: the resolutions that the external
collaborators (strategy, Cincinnati client, rpm-ostree client) would give to
the calls the agent makes during this tick. Only the field matching the
current state is consulted, mirroring the per-state dispatch in agent.rs. -/
structure TickEnv where
  report_steady : Outcome Bool
  fetch_next : Outcome (Option Release)
  stage : Outcome (Option Release)
  check_progress : Outcome (Option Release)
  green_light : Outcome Bool
  finalize : Outcome (Option Release)
deriving DecidableEq

/-- Result of one RefreshTick: post-tick actor state, whether the tick future
chain resolved (ok) or failed, and whether rpm_ostree_finalize was invoked. -/
structure TickResult where
  state : UpdateAgentState
  ok : Bool
  finalizeCalled : Bool
deriving DecidableEq

/-- Handler of RefreshTick for UpdateAgent (agent.rs), with the per-state
methods inlined at their dispatch sites:
StartState: try_initialize sets Initialization unconditionally.
Initialization: try_steady moves to Steady only when report_steady resolves
true; a false answer or a failed future leaves the state unchanged.
Steady: check_for_update moves to UpdateFound on Some, else unchanged.
UpdateFound: try_update_deployment moves to UpdateInProgress with the
returned release on Some, else unchanged.
UpdateInProgress: check_update_success on Some sets UpdateInProgress with the
returned release again (the source assigns UpdateInProgress, not
UpdateStaged); None or failure leaves the state unchanged.
UpdateStaged: try_finalizing asks green_light; only on a true answer it
invokes rpm_ostree_finalize, and moves to UpdateFinalizing on Some.
UpdateFinalizing: fut ok with no action. -/
def handleRefreshTick (state : UpdateAgentState) (env : TickEnv) : TickResult :=
  match state with
  | .StartState =>
      { state := .Initialization, ok := true, finalizeCalled := false }
  | .Initialization =>
      match env.report_steady with
      | .ok true => { state := .Steady, ok := true, finalizeCalled := false }
      | .ok false => { state := .Initialization, ok := true, finalizeCalled := false }
      | .fail => { state := .Initialization, ok := false, finalizeCalled := false }
  | .Steady =>
      match env.fetch_next with
      | .ok (some r) => { state := .UpdateFound r, ok := true, finalizeCalled := false }
      | .ok none => { state := .Steady, ok := true, finalizeCalled := false }
      | .fail => { state := .Steady, ok := false, finalizeCalled := false }
  | .UpdateFound r =>
      match env.stage with
      | .ok (some r2) => { state := .UpdateInProgress r2, ok := true, finalizeCalled := false }
      | .ok none => { state := .UpdateFound r, ok := true, finalizeCalled := false }
      | .fail => { state := .UpdateFound r, ok := false, finalizeCalled := false }
  | .UpdateInProgress r =>
      match env.check_progress with
      | .ok (some r2) => { state := .UpdateInProgress r2, ok := true, finalizeCalled := false }
      | .ok none => { state := .UpdateInProgress r, ok := true, finalizeCalled := false }
      | .fail => { state := .UpdateInProgress r, ok := false, finalizeCalled := false }
  | .UpdateStaged r =>
      match env.green_light with
      | .fail => { state := .UpdateStaged r, ok := false, finalizeCalled := false }
      | .ok false => { state := .UpdateStaged r, ok := true, finalizeCalled := false }
      | .ok true =>
          match env.finalize with
          | .ok (some r2) => { state := .UpdateFinalizing r2, ok := true, finalizeCalled := true }
          | .ok none => { state := .UpdateStaged r, ok := true, finalizeCalled := true }
          | .fail => { state := .UpdateStaged r, ok := false, finalizeCalled := true }
  | .UpdateFinalizing r =>
      { state := .UpdateFinalizing r, ok := true, finalizeCalled := false }

/-- Iterate RefreshTick handling over a list of tick environments, keeping
only the evolving actor state. -/
def runTicks (state : UpdateAgentState) (envs : List TickEnv) : UpdateAgentState :=
  envs.foldl (fun st e => (handleRefreshTick st e).state) state

/-- Strategy with no coordination (strategy/immediate.rs). -/
structure StratImmediate where
deriving DecidableEq

/-- StratImmediate.has_green_light always resolves true. -/
def StratImmediate.has_green_light (_s : StratImmediate) : Outcome Bool := .ok true

/-- StratImmediate.report_steady always resolves true. -/
def StratImmediate.report_steady (_s : StratImmediate) : Outcome Bool := .ok true

/-- Strategy that never reboots (strategy/never.rs). -/
structure StratNever where
deriving DecidableEq

/-- StratNever.has_green_light always resolves false. -/
def StratNever.has_green_light (_s : StratNever) : Outcome Bool := .ok false

/-- StratNever.report_steady always resolves false. -/
def StratNever.report_steady (_s : StratNever) : Outcome Bool := .ok false

/-- Periodic strategy (strategy/periodic.rs): its single method, named
finalize in the source, always resolves true. -/
structure StratPeriodic where
deriving DecidableEq

/-- StratPeriodic.finalize always resolves true. -/
def StratPeriodic.finalize (_s : StratPeriodic) : Outcome Bool := .ok true

/-- Default base URL to the remote lock manager (strategy/remote_http.rs). -/
def DEFAULT_REMOTE_HTTP_BASE : String := "http://localhost:9999"

/-- Lock manager pre-reboot endpoint path (v1). -/
def LOCK_V1_PRE_REBOOT_PATH : String := "v1/pre-reboot"

/-- Lock manager steady-state endpoint path (v1). -/
def LOCK_V1_STEADY_STATE_PATH : String := "v1/steady-state"

/-- Remote HTTP lock-manager strategy (strategy/remote_http.rs); the parsed
base URL is kept as its string rendering. -/
structure StratRemoteHTTP where
  base_url : String
deriving DecidableEq

/-- Response of the remote lock manager to one POST, as observed by the
reqwest client: either the request failed at the network level, or a
response with some HTTP status code arrived. -/
inductive HttpResponse
  | failure
  | status (code : Nat)
deriving DecidableEq

/-- StratRemoteHTTP.post_to_manager (strategy/remote_http.rs): joining the
base URL with the endpoint path is abstracted by joinOk (reqwest URL join;
an Err there returns an immediately failed future). A network-level failure
of the POST is a failed future. The reqwest error_for_status combinator
turns client-error (400-499) and server-error (500-599) statuses into a
failed future; any remaining response resolves to the boolean comparison of
its status against 200. -/
def post_to_manager (_s : StratRemoteHTTP) (joinOk : Bool) (_path : String)
    (resp : HttpResponse) : Outcome Bool :=
  if joinOk then
    match resp with
    | .failure => .fail
    | .status code =>
        if 400 ≤ code ∧ code ≤ 599 then .fail
        else .ok (code == 200)
  else .fail

/-- StratRemoteHTTP.has_green_light: POST to the v1/pre-reboot endpoint. -/
def StratRemoteHTTP.has_green_light (s : StratRemoteHTTP) (joinOk : Bool)
    (resp : HttpResponse) : Outcome Bool :=
  post_to_manager s joinOk LOCK_V1_PRE_REBOOT_PATH resp

/-- StratRemoteHTTP.report_steady: POST to the v1/steady-state endpoint. -/
def StratRemoteHTTP.report_steady (s : StratRemoteHTTP) (joinOk : Bool)
    (resp : HttpResponse) : Outcome Bool :=
  post_to_manager s joinOk LOCK_V1_STEADY_STATE_PATH resp

/-- UpStrategy (strategy/mod.rs): the pluggable finalization strategy. -/
inductive UpStrategy
  | Http (h : StratRemoteHTTP)
  | Immediate (i : StratImmediate)
  | Never (n : StratNever)
  | Periodic (p : StratPeriodic)
deriving DecidableEq

/-- Configuration input for the remote_http strategy (config/inputs.rs). -/
structure StratHttpInput where
  base_url : String
deriving DecidableEq

/-- Configuration input for strategy selection (config/inputs.rs
UpdateConfig): the strategy name and the remote_http sub-config. -/
structure UpdateConfig where
  strategy : String
  remote_http : StratHttpInput
deriving DecidableEq

/-- StratRemoteHTTP.parse (strategy/remote_http.rs): an empty configured base
URL falls back to the default; parsing of the URL by the external reqwest
crate is abstracted by the urlParse argument, a parse failure becoming the
fatal error of the enclosing Fallible. -/
def StratRemoteHTTP.parse (urlParse : String → Option String)
    (cfg : StratHttpInput) : Outcome StratRemoteHTTP :=
  let base_url := if cfg.base_url.isEmpty then DEFAULT_REMOTE_HTTP_BASE else cfg.base_url
  match urlParse base_url with
  | some u => .ok { base_url := u }
  | none => .fail

/-- UpStrategy.try_periodic (strategy/mod.rs): always succeeds. -/
def UpStrategy.try_periodic : Outcome UpStrategy := .ok (.Periodic {})

/-- UpStrategy.try_remote_http (strategy/mod.rs). -/
def UpStrategy.try_remote_http (urlParse : String → Option String)
    (cfg : StratHttpInput) : Outcome UpStrategy :=
  match StratRemoteHTTP.parse urlParse cfg with
  | .ok remote => .ok (.Http remote)
  | .fail => .fail

/-- Default for UpStrategy (strategy/mod.rs): Immediate. -/
def UpStrategy.defaultStrategy : UpStrategy := .Immediate {}

/-- UpStrategy.try_from_config (strategy/mod.rs): ordered literal match over
the configured strategy name; an unsupported name bails with a fatal error. -/
def UpStrategy.try_from_config (urlParse : String → Option String)
    (cfg : UpdateConfig) : Outcome UpStrategy :=
  if cfg.strategy = "immediate" then .ok (.Immediate {})
  else if cfg.strategy = "never" then .ok (.Never {})
  else if cfg.strategy = "periodic" then UpStrategy.try_periodic
  else if cfg.strategy = "remote_http" then UpStrategy.try_remote_http urlParse cfg.remote_http
  else if cfg.strategy = "" then .ok UpStrategy.defaultStrategy
  else .fail

/-- Identity (update_agent/identity.rs): the node self-description; the node
UUID is kept as its string rendering, the throttle as an optional permille
value (u16 in the source, embedded as Nat since no arithmetic is done). -/
structure Identity where
  arch : String
  current_version : String
  group : String
  node_uuid : String
  platform : String
  stream : String
  throttle_permille : Option Nat
deriving DecidableEq

/-- Query parameters of the Cincinnati graph request (cincinnati/mod.rs
HttpParams). -/
structure HttpParams where
  current_version : String
  stream : String
  arch : String
  platform : String
  throttle_permille : String
deriving DecidableEq

/-- From Identity for HttpParams (cincinnati/mod.rs): a configured throttle
value is rendered in decimal; an absent one is sent as the placeholder
string 666. -/
def HttpParams.from_identity (identity : Identity) : HttpParams :=
  let throttle_permille :=
    match identity.throttle_permille with
    | some t => toString t
    | none => "666"
  { current_version := identity.current_version
    stream := identity.stream
    arch := identity.arch
    platform := identity.platform
    throttle_permille := throttle_permille }

/-- Modelled from the spec: the update graph provided by the external
libcincinnati crate, which is not part of src. Per the spec a Graph is a
directed structure of releases (nodes) and reachability edges, supporting
lookup of a release by version string and enumeration of the direct
successor releases of a node. -/
structure Graph where
  nodes : List Release
  edges : List (Nat × Nat)
deriving DecidableEq

/-- Modelled from the spec: locate the node carrying the given version
string, returning its index. -/
def Graph.find_by_version (g : Graph) (version : String) : Option Nat :=
  g.nodes.findIdx? (fun r => r.version == version)

/-- Modelled from the spec: the releases directly reachable from the node at
the given index, following the graph edges. -/
def Graph.next_releases (g : Graph) (release_id : Nat) : List Release :=
  g.edges.filterMap (fun e => if e.1 = release_id then g.nodes[e.2]? else none)

/-- Failure of fetch_cincinnati_next, by provenance: network covers request,
non-success status and JSON parse failures, surfaced before a graph exists;
currentNotFound is the distinct data-inconsistency error built by
format_err when the current version is absent from the fetched graph. -/
inductive FetchError
  | network
  | currentNotFound (version : String)
deriving DecidableEq

/-- fetch_cincinnati_next (cincinnati/mod.rs), from the point where the
HTTP/parse pipeline has produced either a network-class error or a parsed
graph: look up the current version (absent: the distinct currentNotFound
error), collect the directly reachable releases, and pick the first one, if
any, as the next update. -/
def fetch_cincinnati_next (resp : Except FetchError Graph)
    (current_version : String) : Except FetchError (Option Release) :=
  match resp with
  | .error e => .error e
  | .ok graph =>
      match graph.find_by_version current_version with
      | none => .error (.currentNotFound current_version)
      | some release_id =>
          let next_releases := graph.next_releases release_id
          .ok next_releases.head?

/-- RpmOstreeClient actor state (rpm_ostree.rs): the single optional
pending-release slot. -/
structure RpmOstreeClient where
  pending : Option Release
deriving DecidableEq

/-- Observable effect of one StageUpdate message (rpm_ostree.rs handler):
the updated actor, whether the enqueue trace line was logged, whether an
ApplyPending notification was sent to self, and whether the handler
resolved without error. -/
structure StageUpdateResult where
  client : RpmOstreeClient
  logged : Bool
  applyNotified : Bool
  isOk : Bool
deriving DecidableEq

/-- Handler of StageUpdate for RpmOstreeClient (rpm_ostree.rs): only when
the pending slot is empty is the release written (and the enqueue traced);
otherwise the slot and its release are kept and the message carries no
effect on the slot and emits no log. In both cases an ApplyPending
notification is sent and the handler resolves ok. -/
def handleStageUpdate (client : RpmOstreeClient) (release : Release) : StageUpdateResult :=
  match client.pending with
  | none =>
      { client := { pending := some release }
        logged := true, applyNotified := true, isOk := true }
  | some _ =>
      { client := client
        logged := false, applyNotified := true, isOk := true }

/-- Handler of ApplyPending for RpmOstreeClient (rpm_ostree.rs): whether a
stage IPC call toward the blocking dbus worker is issued, which happens
exactly when a pending release is present. -/
def handleApplyPending (client : RpmOstreeClient) : Bool :=
  client.pending.isSome

/-- Finalizer actor state (finalize.rs): identity, the optional pending
release slot, the steady flag, and the chosen strategy. -/
structure Finalizer where
  identity : Identity
  pending : Option Release
  steady : Bool
  strategy : UpStrategy
deriving DecidableEq

/-- Handler of NewPending for Finalizer (finalize.rs): the payload is
written into the pending slot unconditionally, and a TriggerFinalize
notification is sent to self. -/
def handleNewPending (f : Finalizer) (payload : Release) : Finalizer × Bool :=
  ({ f with pending := some payload }, true)

/-- Observable effect of one TriggerFinalize message (finalize.rs handler). -/
structure TriggerFinalizeResult where
  finalizeCalled : Bool
  isOk : Bool
deriving DecidableEq

/-- Handler of TriggerFinalize for Finalizer (finalize.rs): nothing to do
without a pending release; with one but before steady state, only a warning
is logged; otherwise the strategy green-light answer gates the
rpm_ostree_finalize call, whose outcome becomes the handler resolution. -/
def handleTriggerFinalize (f : Finalizer) (green_light : Outcome Bool)
    (finalizeOutcome : Outcome Unit) : TriggerFinalizeResult :=
  match f.pending with
  | none => { finalizeCalled := false, isOk := true }
  | some _ =>
      if !f.steady then { finalizeCalled := false, isOk := true }
      else
        match green_light with
        | .fail => { finalizeCalled := false, isOk := false }
        | .ok false => { finalizeCalled := false, isOk := true }
        | .ok true =>
            match finalizeOutcome with
            | .ok _ => { finalizeCalled := true, isOk := true }
            | .fail => { finalizeCalled := true, isOk := false }

/-- Version string of the sample current release. -/
def verCurrent : String := "1.0.0"

/-- Version string absent from the sample graph. -/
def verMissing : String := "2.0.0"

/-- Sample release used as update candidate. -/
def releaseA : Release := { version := "1.1.0" }

/-- Sample release distinct from releaseA. -/
def releaseB : Release := { version := verMissing }

/-- Sample release matching the current version. -/
def releaseOld : Release := { version := verCurrent }

/-- Sample graph holding only the current release, with no edges. -/
def graphA : Graph := { nodes := [releaseOld], edges := [] }

/-- Tick environment of an Immediate-strategy node whose collaborators all
succeed with the given release. -/
def envImmediateAllOk (r : Release) : TickEnv :=
  { report_steady := StratImmediate.report_steady {}
    fetch_next := .ok (some r)
    stage := .ok (some r)
    check_progress := .ok (some r)
    green_light := StratImmediate.has_green_light {}
    finalize := .ok (some r) }

/-- Tick environment whose graph fetch fails. -/
def envFetchFails : TickEnv :=
  { report_steady := .ok true
    fetch_next := .fail
    stage := .ok none
    check_progress := .ok none
    green_light := .ok false
    finalize := .ok none }

/-- Tick environment of a Never-strategy node whose backend calls all
succeed with the given release. -/
def envNever (r : Release) : TickEnv :=
  { report_steady := StratNever.report_steady {}
    fetch_next := .ok (some r)
    stage := .ok (some r)
    check_progress := .ok (some r)
    green_light := StratNever.has_green_light {}
    finalize := .ok (some r) }

/-- Sample node identity without a configured throttle value. -/
def identityA : Identity :=
  { arch := "amd64"
    current_version := "FCOS-01"
    group := "default"
    node_uuid := "00000000-0000-0000-0000-000000000000"
    platform := "metal-bios"
    stream := "stable"
    throttle_permille := none }

/-- Sample Finalizer already steady, with releaseA pending. -/
def finalizerA : Finalizer :=
  { identity := identityA
    pending := some releaseA
    steady := true
    strategy := .Never {} }

/-- Sample remote lock-manager strategy at the default base URL. -/
def stratHttpA : StratRemoteHTTP := { base_url := DEFAULT_REMOTE_HTTP_BASE }

/-- URL parsing stand-in that accepts every string unchanged. -/
def urlParseId : String → Option String := fun s => some s

/-- Configuration selecting the remote_http strategy with no base URL. -/
def cfgRemote : UpdateConfig := { strategy := "remote_http", remote_http := { base_url := "" } }

/-- Configuration carrying an unsupported strategy name. -/
def cfgBogus : UpdateConfig := { strategy := "banana", remote_http := { base_url := "" } }

/-- C1: at the failing input, a tick in UpdateInProgress(releaseA) whose
backend check-progress call resolves Some(releaseA) leaves the agent in
UpdateInProgress(releaseA) — not in UpdateStaged(releaseA) as the claim
requires — while a None answer does leave the state unchanged for retry. -/
theorem c1_check_progress_keeps_in_progress :
    (handleRefreshTick (.UpdateInProgress releaseA) (envImmediateAllOk releaseA)).state
        = .UpdateInProgress releaseA
    ∧ (handleRefreshTick (.UpdateInProgress releaseA) (envImmediateAllOk releaseA)).state
        ≠ .UpdateStaged releaseA
    ∧ (handleRefreshTick (.UpdateInProgress releaseA)
          { envImmediateAllOk releaseA with check_progress := .ok none }).state
        = .UpdateInProgress releaseA := by
  decide

/-- C2 counterexample: a 404 response to the pre-reboot POST resolves the
has_green_light future as a failure, not as the false answer the claim
requires for every non-200 status. -/
theorem c2_counterexample :
    StratRemoteHTTP.has_green_light stratHttpA true (.status 404) = .fail
    ∧ StratRemoteHTTP.has_green_light stratHttpA true (.status 404) ≠ .ok false := by
  decide

/-- C2 amended: for the RemoteHttp strategy the future returned by
has_green_light or report_steady resolves true exactly on HTTP status 200;
it resolves false for a non-200 status outside the 400-599 error classes;
and for a 4xx or 5xx status, or a network error, it fails with an error
rather than resolving false. -/
theorem c2_amended_resolution (s : StratRemoteHTTP) (resp : HttpResponse) :
    (s.has_green_light true resp = .ok true ↔ resp = .status 200)
    ∧ (s.report_steady true resp = .ok true ↔ resp = .status 200)
    ∧ (s.has_green_light true .failure = .fail ∧ s.report_steady true .failure = .fail)
    ∧ (∀ code, 400 ≤ code → code ≤ 599 →
        s.has_green_light true (.status code) = .fail
        ∧ s.report_steady true (.status code) = .fail)
    ∧ (∀ code, ¬(400 ≤ code ∧ code ≤ 599) → code ≠ 200 →
        s.has_green_light true (.status code) = .ok false
        ∧ s.report_steady true (.status code) = .ok false) := by
  refine ⟨?_, ?_, ?_, ?_, ?_⟩
  · cases resp with
    | failure => simp [StratRemoteHTTP.has_green_light, post_to_manager]
    | status code =>
        by_cases hc : 400 ≤ code ∧ code ≤ 599
        · simp [StratRemoteHTTP.has_green_light, post_to_manager, hc]
          omega
        · simp [StratRemoteHTTP.has_green_light, post_to_manager, hc]
  · cases resp with
    | failure => simp [StratRemoteHTTP.report_steady, post_to_manager]
    | status code =>
        by_cases hc : 400 ≤ code ∧ code ≤ 599
        · simp [StratRemoteHTTP.report_steady, post_to_manager, hc]
          omega
        · simp [StratRemoteHTTP.report_steady, post_to_manager, hc]
  · exact ⟨rfl, rfl⟩
  · intro code h4 h5
    have hc : 400 ≤ code ∧ code ≤ 599 := ⟨h4, h5⟩
    constructor
    · simp [StratRemoteHTTP.has_green_light, post_to_manager, hc]
    · simp [StratRemoteHTTP.report_steady, post_to_manager, hc]
  · intro code hc hne
    constructor
    · simp [StratRemoteHTTP.has_green_light, post_to_manager, hc, hne]
    · simp [StratRemoteHTTP.report_steady, post_to_manager, hc, hne]

/-- C2 amended witness: a 503 response fails both futures. -/
theorem c2_amended_resolution_witness :
    StratRemoteHTTP.has_green_light stratHttpA true (.status 503) = .fail
    ∧ StratRemoteHTTP.report_steady stratHttpA true (.status 503) = .fail :=
  (c2_amended_resolution stratHttpA (.status 503)).2.2.2.1 503 (by decide) (by decide)

/-- C3: a tick whose external call fails with an error leaves the agent
state exactly as it was before the tick, for every state and every tick
environment. -/
theorem c3_failure_preserves_state (s : UpdateAgentState) (env : TickEnv)
    (h : (handleRefreshTick s env).ok = false) :
    (handleRefreshTick s env).state = s := by
  cases s with
  | StartState => simp [handleRefreshTick] at h
  | Initialization =>
      cases hrs : env.report_steady with
      | ok b => cases b <;> simp [handleRefreshTick, hrs] at h
      | fail => simp [handleRefreshTick, hrs]
  | Steady =>
      cases hf : env.fetch_next with
      | ok v => cases v <;> simp [handleRefreshTick, hf] at h
      | fail => simp [handleRefreshTick, hf]
  | UpdateFound r =>
      cases hs : env.stage with
      | ok v => cases v <;> simp [handleRefreshTick, hs] at h
      | fail => simp [handleRefreshTick, hs]
  | UpdateInProgress r =>
      cases hc : env.check_progress with
      | ok v => cases v <;> simp [handleRefreshTick, hc] at h
      | fail => simp [handleRefreshTick, hc]
  | UpdateStaged r =>
      cases hg : env.green_light with
      | ok b =>
          cases b with
          | false => simp [handleRefreshTick, hg] at h
          | true =>
              cases hfin : env.finalize with
              | ok v => cases v <;> simp [handleRefreshTick, hg, hfin] at h
              | fail => simp [handleRefreshTick, hg, hfin]
      | fail => simp [handleRefreshTick, hg]
  | UpdateFinalizing r => simp [handleRefreshTick] at h

/-- C3 witness: a failed graph fetch in Steady fails the tick and keeps the
agent in Steady. -/
theorem c3_failure_preserves_state_witness :
    (handleRefreshTick .Steady envFetchFails).ok = false
    ∧ (handleRefreshTick .Steady envFetchFails).state = .Steady :=
  ⟨rfl, c3_failure_preserves_state .Steady envFetchFails rfl⟩

/-- C4: the agent issues a finalize call during a tick only when the
green-light answer of that same tick resolved true from UpdateStaged; the
agent state becomes UpdateFinalizing only through that same gate; and the
split Finalizer issues its finalize call only on a true green-light
answer. -/
theorem c4_green_light_gates_finalize (s : UpdateAgentState) (env : TickEnv)
    (f : Finalizer) (g : Outcome Bool) (fo : Outcome Unit) :
    ((handleRefreshTick s env).finalizeCalled = true →
        env.green_light = .ok true ∧ ∃ r, s = .UpdateStaged r)
    ∧ (∀ r2, (handleRefreshTick s env).state = .UpdateFinalizing r2 →
        s ≠ .UpdateFinalizing r2 →
        env.green_light = .ok true ∧ ∃ r, s = .UpdateStaged r)
    ∧ ((handleTriggerFinalize f g fo).finalizeCalled = true → g = .ok true) := by
  refine ⟨?_, ?_, ?_⟩
  · intro h
    cases s with
    | StartState => simp [handleRefreshTick] at h
    | Initialization =>
        cases hrs : env.report_steady with
        | ok b => cases b <;> simp [handleRefreshTick, hrs] at h
        | fail => simp [handleRefreshTick, hrs] at h
    | Steady =>
        cases hf : env.fetch_next with
        | ok v => cases v <;> simp [handleRefreshTick, hf] at h
        | fail => simp [handleRefreshTick, hf] at h
    | UpdateFound r =>
        cases hs : env.stage with
        | ok v => cases v <;> simp [handleRefreshTick, hs] at h
        | fail => simp [handleRefreshTick, hs] at h
    | UpdateInProgress r =>
        cases hc : env.check_progress with
        | ok v => cases v <;> simp [handleRefreshTick, hc] at h
        | fail => simp [handleRefreshTick, hc] at h
    | UpdateStaged r =>
        cases hg : env.green_light with
        | ok b =>
            cases b with
            | false => simp [handleRefreshTick, hg] at h
            | true => exact ⟨rfl, r, rfl⟩
        | fail => simp [handleRefreshTick, hg] at h
    | UpdateFinalizing r => simp [handleRefreshTick] at h
  · intro r2 hpost hne
    cases s with
    | StartState => simp [handleRefreshTick] at hpost
    | Initialization =>
        cases hrs : env.report_steady with
        | ok b => cases b <;> simp [handleRefreshTick, hrs] at hpost
        | fail => simp [handleRefreshTick, hrs] at hpost
    | Steady =>
        cases hf : env.fetch_next with
        | ok v => cases v <;> simp [handleRefreshTick, hf] at hpost
        | fail => simp [handleRefreshTick, hf] at hpost
    | UpdateFound r =>
        cases hs : env.stage with
        | ok v => cases v <;> simp [handleRefreshTick, hs] at hpost
        | fail => simp [handleRefreshTick, hs] at hpost
    | UpdateInProgress r =>
        cases hc : env.check_progress with
        | ok v => cases v <;> simp [handleRefreshTick, hc] at hpost
        | fail => simp [handleRefreshTick, hc] at hpost
    | UpdateStaged r =>
        cases hg : env.green_light with
        | ok b =>
            cases b with
            | false => simp [handleRefreshTick, hg] at hpost
            | true => exact ⟨rfl, r, rfl⟩
        | fail => simp [handleRefreshTick, hg] at hpost
    | UpdateFinalizing r =>
        have : r = r2 := by simpa [handleRefreshTick] using hpost
        exact absurd (by rw [this]) hne
  · intro h
    cases hp : f.pending with
    | none => simp [handleTriggerFinalize, hp] at h
    | some p =>
        cases hst : f.steady with
        | false => simp [handleTriggerFinalize, hp, hst] at h
        | true =>
            cases hg : g with
            | ok b =>
                cases b with
                | false => simp [handleTriggerFinalize, hp, hst, hg] at h
                | true => rfl
            | fail => simp [handleTriggerFinalize, hp, hst, hg] at h

/-- C4 witness: in a tick from UpdateStaged with every collaborator of the
Immediate strategy succeeding, the finalize call is issued and the
green-light answer of that tick was true. -/
theorem c4_green_light_gates_finalize_witness :
    (envImmediateAllOk releaseA).green_light = .ok true
    ∧ ∃ r, UpdateAgentState.UpdateStaged releaseA = .UpdateStaged r :=
  (c4_green_light_gates_finalize (.UpdateStaged releaseA) (envImmediateAllOk releaseA)
      finalizerA (.ok true) (.ok ())).1 rfl

/-- C5 counterexample: with releaseA pending, a NewPending message for the
different releaseB overwrites the split Finalizer pending slot — last write
wins — instead of the claimed first-write-wins drop of the request. -/
theorem c5_counterexample :
    (handleNewPending finalizerA releaseB).1.pending = some releaseB
    ∧ releaseB ≠ releaseA
    ∧ finalizerA.pending = some releaseA := by
  decide

/-- C5 amended: the update-backend client slot is first-write-wins — a
stage request arriving while any release is pending (same or different)
leaves the slot untouched and succeeds, but silently, with no log record
(the only log is emitted on first enqueue) — and every stage request sends
an apply-pending notification over the single slot; the split Finalizer
slot is instead overwritten unconditionally by each NewPending payload. -/
theorem c5_amended_slot_policy (c : RpmOstreeClient) (r p : Release) (f : Finalizer) :
    (c.pending = none →
        handleStageUpdate c r =
          { client := { pending := some r }
            logged := true, applyNotified := true, isOk := true })
    ∧ (c.pending = some p →
        (handleStageUpdate c r).client = c
        ∧ (handleStageUpdate c r).isOk = true
        ∧ (handleStageUpdate c r).logged = false
        ∧ (handleStageUpdate c r).applyNotified = true)
    ∧ (handleNewPending f r).1 = { f with pending := some r } := by
  refine ⟨?_, ?_, rfl⟩
  · intro hnone
    simp [handleStageUpdate, hnone]
  · intro hsome
    simp [handleStageUpdate, hsome]

/-- C5 amended witness: a stage request for releaseB while releaseA is
pending keeps the slot on releaseA, succeeds, and logs nothing. -/
theorem c5_amended_slot_policy_witness :
    (handleStageUpdate { pending := some releaseA } releaseB).client
        = { pending := some releaseA }
    ∧ (handleStageUpdate { pending := some releaseA } releaseB).isOk = true
    ∧ (handleStageUpdate { pending := some releaseA } releaseB).logged = false
    ∧ (handleStageUpdate { pending := some releaseA } releaseB).applyNotified = true :=
  (c5_amended_slot_policy { pending := some releaseA } releaseB releaseA finalizerA).2.1 rfl

/-- C6: with the Immediate strategy and every collaborator succeeding with
releaseA on each of seven consecutive ticks from Start, the agent ends in
UpdateInProgress(releaseA), not in UpdateFinalizing(releaseA): the
check-progress tick re-enters UpdateInProgress, so the staged and
finalizing states are never reached. -/
theorem c6_immediate_run_stuck :
    runTicks .StartState (List.replicate 7 (envImmediateAllOk releaseA))
        = .UpdateInProgress releaseA
    ∧ runTicks .StartState (List.replicate 7 (envImmediateAllOk releaseA))
        ≠ .UpdateFinalizing releaseA := by
  decide

/-- C7: the Never strategy answers false to every green-light query, and an
agent staged on release r stays in UpdateStaged(r) without ever issuing a
finalize call across any sequence of ticks whose green-light resolution
comes from that strategy. -/
theorem c7_never_stays_staged (r : Release) (envs : List TickEnv)
    (h : ∀ e ∈ envs, e.green_light = StratNever.has_green_light {}) :
    StratNever.has_green_light {} = .ok false
    ∧ runTicks (.UpdateStaged r) envs = .UpdateStaged r
    ∧ ∀ e ∈ envs, (handleRefreshTick (.UpdateStaged r) e).finalizeCalled = false := by
  have key : ∀ envs2 : List TickEnv,
      (∀ e ∈ envs2, e.green_light = StratNever.has_green_light {}) →
      runTicks (.UpdateStaged r) envs2 = .UpdateStaged r := by
    intro envs2
    induction envs2 with
    | nil => intro _; rfl
    | cons e es ih =>
        intro h2
        have he : e.green_light = Outcome.ok false := h2 e (List.mem_cons_self e es)
        have hstep : (handleRefreshTick (.UpdateStaged r) e).state = .UpdateStaged r := by
          simp [handleRefreshTick, he]
        have hrw : runTicks (.UpdateStaged r) (e :: es)
            = runTicks ((handleRefreshTick (.UpdateStaged r) e).state) es := rfl
        rw [hrw, hstep]
        exact ih (fun x hx => h2 x (List.mem_cons_of_mem e hx))
  refine ⟨rfl, key envs h, ?_⟩
  intro e he
  have hg : e.green_light = Outcome.ok false := h e he
  simp [handleRefreshTick, hg]

/-- C7 witness: three Never-strategy ticks from UpdateStaged(releaseA). -/
theorem c7_never_stays_staged_witness :
    runTicks (.UpdateStaged releaseA)
        [envNever releaseA, envNever releaseA, envNever releaseA]
      = .UpdateStaged releaseA :=
  (c7_never_stays_staged releaseA
      [envNever releaseA, envNever releaseA, envNever releaseA] (by decide)).2.1

/-- C8: over a successfully fetched and parsed graph, the next-update
computation fails with the distinct current-version-not-found
data-inconsistency error — never the network-class error — when the current
version is absent from the graph, and succeeds with no candidate when the
current version is present but its reachable successor set is empty. -/
theorem c8_fetch_next_current_version (g : Graph) (v : String) :
    (g.find_by_version v = none →
        fetch_cincinnati_next (.ok g) v = .error (.currentNotFound v)
        ∧ fetch_cincinnati_next (.ok g) v ≠ .error .network)
    ∧ (∀ i, g.find_by_version v = some i → g.next_releases i = [] →
        fetch_cincinnati_next (.ok g) v = .ok none) := by
  constructor
  · intro hnone
    refine ⟨by simp [fetch_cincinnati_next, hnone], ?_⟩
    simp [fetch_cincinnati_next, hnone]
  · intro i hsome hempty
    simp [fetch_cincinnati_next, hsome, hempty]

/-- C8 witness: over the one-node sample graph, looking for the missing
version 2.0.0 raises the distinct data-inconsistency error, and looking for
the present but successor-less version 1.0.0 yields no candidate. -/
theorem c8_fetch_next_current_version_witness :
    fetch_cincinnati_next (.ok graphA) verMissing = .error (.currentNotFound verMissing)
    ∧ fetch_cincinnati_next (.ok graphA) verCurrent = .ok none :=
  ⟨((c8_fetch_next_current_version graphA verMissing).1 (by decide)).1,
   (c8_fetch_next_current_version graphA verCurrent).2 0 (by decide) (by decide)⟩

/-- C9: strategy construction maps the names immediate, never, periodic and
remote_http to their variants (remote_http through the configured or
default base URL, whenever the URL parses), defaults the empty name to
Immediate, and fails fatally on every other name. -/
theorem c9_try_from_config (urlParse : String → Option String) (cfg : UpdateConfig) :
    (cfg.strategy = "immediate" →
        UpStrategy.try_from_config urlParse cfg = .ok (.Immediate {}))
    ∧ (cfg.strategy = "never" →
        UpStrategy.try_from_config urlParse cfg = .ok (.Never {}))
    ∧ (cfg.strategy = "periodic" →
        UpStrategy.try_from_config urlParse cfg = .ok (.Periodic {}))
    ∧ (∀ u, cfg.strategy = "remote_http" →
        urlParse (if cfg.remote_http.base_url.isEmpty then DEFAULT_REMOTE_HTTP_BASE
            else cfg.remote_http.base_url) = some u →
        UpStrategy.try_from_config urlParse cfg = .ok (.Http { base_url := u }))
    ∧ (cfg.strategy = "" →
        UpStrategy.try_from_config urlParse cfg = .ok (.Immediate {}))
    ∧ (cfg.strategy ≠ "immediate" → cfg.strategy ≠ "never" → cfg.strategy ≠ "periodic" →
        cfg.strategy ≠ "remote_http" → cfg.strategy ≠ "" →
        UpStrategy.try_from_config urlParse cfg = .fail) := by
  refine ⟨?_, ?_, ?_, ?_, ?_, ?_⟩
  · intro h
    simp [UpStrategy.try_from_config, h]
  · intro h
    simp [UpStrategy.try_from_config, h]
  · intro h
    simp [UpStrategy.try_from_config, h, UpStrategy.try_periodic]
  · intro u h hu
    simp [UpStrategy.try_from_config, h, UpStrategy.try_remote_http,
      StratRemoteHTTP.parse, hu]
  · intro h
    simp [UpStrategy.try_from_config, h, UpStrategy.defaultStrategy]
  · intro h1 h2 h3 h4 h5
    simp [UpStrategy.try_from_config, h1, h2, h3, h4, h5]

/-- C9 witness: remote_http with an empty base URL builds the RemoteHttp
variant at the default base URL, and an unsupported name fails. -/
theorem c9_try_from_config_witness :
    UpStrategy.try_from_config urlParseId cfgRemote
        = .ok (.Http { base_url := DEFAULT_REMOTE_HTTP_BASE })
    ∧ UpStrategy.try_from_config urlParseId cfgBogus = .fail :=
  ⟨(c9_try_from_config urlParseId cfgRemote).2.2.2.1 DEFAULT_REMOTE_HTTP_BASE rfl rfl,
   (c9_try_from_config urlParseId cfgBogus).2.2.2.2.2 (by decide) (by decide)
      (by decide) (by decide) (by decide)⟩

/-- C10: converting an Identity into graph query parameters renders a
present throttle value as its decimal string and substitutes the fixed
placeholder 666 for an absent one. -/
theorem c10_throttle_permille_params (identity : Identity) :
    (∀ t, identity.throttle_permille = some t →
        (HttpParams.from_identity identity).throttle_permille = toString t)
    ∧ (identity.throttle_permille = none →
        (HttpParams.from_identity identity).throttle_permille = "666") := by
  constructor
  · intro t ht
    simp [HttpParams.from_identity, ht]
  · intro hn
    simp [HttpParams.from_identity, hn]

/-- C10 witness: the sample identity carries no throttle value and is sent
with the placeholder. -/
theorem c10_throttle_permille_params_witness :
    (HttpParams.from_identity identityA).throttle_permille = "666" :=
  (c10_throttle_permille_params identityA).2 rfl

end Zincati
